import Mathlib

/-!
Shallow embedding of the DMSApp React Native client (document management
system). The embedding covers:

* `services/DocumentService.js` — `getUserToken`, `uploadDocument`,
  `fetchDocumentTags`, `searchDocuments`;
* `context/AuthContext.js` and `App.js` — the persisted-session holder
  (`loadToken`, `signIn`, `signOut`) and the navigation shell (`AppContent`);
* the screen-level handlers the claims mention: the major-head picker
  handlers and `handleAddTag` on the upload and search screens,
  `handleSubmit` on the upload screen, `handleValidateOtp` on the login
  screen.

Modelling conventions:
* `AsyncStorage` under the single key `userToken` is an `Option String`
  (the stored value, or `none`); each storage operation takes a `Bool`
  saying whether the underlying operation succeeds, since the JS code
  wraps every storage call in try/catch.
* A `fetch` response is an `HttpResponse`: a numeric status plus the
  already-JSON-decoded body (`ApiBody`).  `response.ok` is
  `200 ≤ status < 300`.
* JavaScript truthiness of a nullable string (`!userToken`,
  `data.message || d`) is made explicit: `none` and `some ""` are falsy.
* Each service call returns the request it issued (`none` when no network
  call was made) together with `Except`: `Except.error` is a thrown
  `Error` carrying its message string.
-/

/-- Truthiness of a JS value that is either a string or null/undefined:
falsy exactly when absent or the empty string. -/
def jsTruthyStr : Option String → Bool
  | none => false
  | some t => t != ""

/-- The JS idiom `x || d` for a nullable string `x`: yields `d` when `x`
is absent or empty, else `x`. -/
def jsOrStr (x : Option String) (d : String) : String :=
  match x with
  | none => d
  | some s => if s = "" then d else s

/-- JS `String.prototype.trim`: strips leading and trailing whitespace.
Written over the character list so that concrete inputs evaluate. -/
def jsTrim (s : String) : String :=
  String.mk
    (((s.toList.dropWhile Char.isWhitespace).reverse.dropWhile
        Char.isWhitespace).reverse)

/-! ### DocumentService.js -/

/-- Message of the missing-session fault thrown by `getUserToken`. -/
def authTokenNotFoundMsg : String :=
  "Authentication token not found. Please log in again."

/-- `getUserToken` from DocumentService.js: reads the stored token and
throws when it is null or empty (`if (!userToken) throw ...`). -/
def getUserToken (store : Option String) : Except String String :=
  match store with
  | none => Except.error authTokenNotFoundMsg
  | some userToken =>
      if userToken = "" then Except.error authTokenNotFoundMsg
      else Except.ok userToken

/-- A JSON-decoded API response body, duck-typed like the JS code: the
fields the client reads, each optional where the server may omit it. -/
structure ApiBody where
  success : Bool
  message : Option String
  token : Option String
deriving DecidableEq, Repr

/-- A `fetch` result: HTTP status plus decoded JSON body. -/
structure HttpResponse where
  status : Nat
  body : ApiBody
deriving DecidableEq, Repr

/-- `response.ok` of the Fetch API: status in the range 200–299. -/
def respOk (status : Nat) : Bool :=
  decide (200 ≤ status ∧ status < 300)

/-- The fault message built in every non-ok branch of DocumentService.js:
`data.message || ` followed by `API error: ` and the status. -/
def apiFault (body : ApiBody) (status : Nat) : String :=
  jsOrStr body.message ("API error: " ++ toString status)

/-- One element of the `tags` array sent to the API. -/
structure TagPayload where
  tag_name : String
deriving DecidableEq, Repr

/-- The metadata blob `documentData` built by the upload screen and sent
as the JSON `data` part of the multipart body. -/
structure DocumentData where
  major_head : String
  minor_head : String
  document_date : String
  document_remarks : String
  tags : List TagPayload
  user_id : String
deriving DecidableEq, Repr

/-- The nested `search` object of the search criteria. -/
structure SearchValue where
  value : String
deriving DecidableEq, Repr

/-- The `searchCriteria` object POSTed verbatim to `searchDocumentEntry`. -/
structure SearchCriteria where
  major_head : String
  minor_head : String
  from_date : String
  to_date : String
  tags : List TagPayload
  uploaded_by : String
  start : Nat
  length : Nat
  filterId : String
  search : SearchValue
deriving DecidableEq, Repr

/-- The multipart POST issued by `uploadDocument`: token header, the file
triple, and the JSON metadata. -/
structure UploadRequest where
  token : String
  fileUri : String
  fileName : String
  fileType : String
  data : DocumentData
deriving DecidableEq, Repr

/-- The POST issued by `fetchDocumentTags`: token header and filter term. -/
structure TagsRequest where
  token : String
  term : String
deriving DecidableEq, Repr

/-- The POST issued by `searchDocuments`: token header and criteria. -/
structure SearchRequest where
  token : String
  criteria : SearchCriteria
deriving DecidableEq, Repr

/-- `uploadDocument` from DocumentService.js.  Reads the token (throwing
the missing-session fault before any network call when absent), issues
the multipart POST, decodes the JSON body, and on a non-ok status throws
`data.message || API error: status`.  The first component is the request
issued, `none` when no network call was made. -/
def uploadDocument (store : Option String) (fileUri fileName fileType : String)
    (documentData : DocumentData) (resp : HttpResponse) :
    Option UploadRequest × Except String ApiBody :=
  match getUserToken store with
  | Except.error e => (none, Except.error e)
  | Except.ok userToken =>
      let req : UploadRequest :=
        { token := userToken, fileUri := fileUri, fileName := fileName,
          fileType := fileType, data := documentData }
      if respOk resp.status then (some req, Except.ok resp.body)
      else (some req, Except.error (apiFault resp.body resp.status))

/-- `fetchDocumentTags` from DocumentService.js: same auth precondition,
POSTs the filter term, same non-ok fault. -/
def fetchDocumentTags (store : Option String) (term : String)
    (resp : HttpResponse) : Option TagsRequest × Except String ApiBody :=
  match getUserToken store with
  | Except.error e => (none, Except.error e)
  | Except.ok userToken =>
      let req : TagsRequest := { token := userToken, term := term }
      if respOk resp.status then (some req, Except.ok resp.body)
      else (some req, Except.error (apiFault resp.body resp.status))

/-- `searchDocuments` from DocumentService.js: same auth precondition,
POSTs the criteria verbatim, same non-ok fault. -/
def searchDocuments (store : Option String) (criteria : SearchCriteria)
    (resp : HttpResponse) : Option SearchRequest × Except String ApiBody :=
  match getUserToken store with
  | Except.error e => (none, Except.error e)
  | Except.ok userToken =>
      let req : SearchRequest := { token := userToken, criteria := criteria }
      if respOk resp.status then (some req, Except.ok resp.body)
      else (some req, Except.error (apiFault resp.body resp.status))

/-! ### AuthContext.js and App.js -/

/-- The in-memory state of `AuthProvider`: `userToken` (a nullable
string) and the `isLoading` flag. -/
structure AuthState where
  userToken : Option String
  isLoading : Bool
deriving DecidableEq, Repr

/-- The state `AuthProvider` mounts with: `useState(null)` for the token
and `useState(true)` for the loading flag. -/
def initialAuthState : AuthState :=
  { userToken := none, isLoading := true }

/-- `loadToken` from AuthContext.js: reads the stored token into state;
on a storage failure the catch only logs, so `userToken` keeps its prior
value; `finally` clears `isLoading` in every case.  `ok` says whether the
`AsyncStorage.getItem` call succeeds. -/
def loadToken (store : Option String) (s : AuthState) (ok : Bool) : AuthState :=
  if ok then { userToken := store, isLoading := false }
  else { s with isLoading := false }

/-- `signIn` from AuthContext.js: persists the token then updates state;
on a storage failure the catch only logs, leaving both the store and the
state unchanged.  Returns the store and state after the call. -/
def signIn (store : Option String) (s : AuthState) (token : String)
    (ok : Bool) : Option String × AuthState :=
  if ok then (some token, { s with userToken := some token })
  else (store, s)

/-- `signOut` from AuthContext.js: clears persisted storage then clears
state; on a storage failure the catch only logs, leaving both unchanged. -/
def signOut (store : Option String) (s : AuthState) (ok : Bool) :
    Option String × AuthState :=
  if ok then (none, { s with userToken := none })
  else (store, s)

/-- The three observable renderings of the navigation shell. -/
inductive ShellState where
  | Loading
  | Authenticated
  | Unauthenticated
deriving DecidableEq, Repr

/-- `AppContent` from App.js: while `isLoading` it renders only the
activity indicator; otherwise it renders the main stack when `userToken`
is truthy and the login screen when it is not. -/
def appContent (s : AuthState) : ShellState :=
  if s.isLoading then ShellState.Loading
  else if jsTruthyStr s.userToken then ShellState.Authenticated
  else ShellState.Unauthenticated

/-! ### Screen state and handlers -/

/-- The file object held by the upload screen (from the document picker
or the camera): uri, name and MIME type. -/
structure FileInfo where
  uri : String
  name : String
  fileType : String
deriving DecidableEq, Repr

/-- A document record as rendered in the search results list. -/
structure DocumentRecord where
  document_name : Option String
  major_head : String
  minor_head : String
  document_date : String
  document_remarks : String
  tags : List TagPayload
deriving DecidableEq, Repr

/-- The local state of UploadScreen.js.  The document date is kept in its
serialized `YYYY-MM-DD` form, the only form the code reads. -/
structure UploadFormState where
  documentDate : String
  majorHead : String
  minorHead : String
  remarks : String
  tags : List String
  newTag : String
  selectedFile : Option FileInfo
  loading : Bool
deriving DecidableEq, Repr

/-- The local state of SearchScreen.js. -/
structure SearchFormState where
  majorHead : String
  minorHead : String
  tags : List String
  newTag : String
  fromDate : Option String
  toDate : Option String
  searchResults : List DocumentRecord
  loading : Bool
deriving DecidableEq, Repr

namespace UploadScreen

/-- The `onValueChange` of the upload screen's major-head Picker:
`setMajorHead(itemValue); setMinorHead('')`. -/
def onMajorHeadChange (s : UploadFormState) (itemValue : String) :
    UploadFormState :=
  { s with majorHead := itemValue, minorHead := "" }

/-- `handleAddTag` from UploadScreen.js: trims the input and appends it
unless it is empty or already selected; on append the input is cleared. -/
def handleAddTag (s : UploadFormState) : UploadFormState :=
  let trimmedTag := jsTrim s.newTag
  if trimmedTag != "" && !(s.tags.contains trimmedTag) then
    { s with tags := s.tags ++ [trimmedTag], newTag := "" }
  else s

/-- `handleRemoveTag` from UploadScreen.js. -/
def handleRemoveTag (s : UploadFormState) (tagToRemove : String) :
    UploadFormState :=
  { s with tags := s.tags.filter (fun tag => tag != tagToRemove) }

/-- `handleSubmit` from UploadScreen.js, from the press to the `finally`:
the three validation gates (each returning early with an alert and the
state untouched), then the call to `uploadDocument` with the metadata
built from the form, then the response handling: `success:true` resets
every field (the date to the current date, `now`), otherwise only the
loading flag is cleared; a thrown fault is alerted in the catch.  Returns
the state after the call and the alert shown, as a title/message pair. -/
def handleSubmit (s : UploadFormState) (store : Option String)
    (resp : HttpResponse) (now : String) :
    UploadFormState × (String × String) :=
  match s.selectedFile with
  | none => (s, ("Validation Error", "Please select a file to upload."))
  | some selectedFile =>
    if s.majorHead = "" ∨ s.minorHead = "" then
      (s, ("Validation Error", "Please select both Major Head and Minor Head."))
    else if s.tags = [] then
      (s, ("Validation Error", "Please add at least one tag."))
    else
      let documentData : DocumentData :=
        { major_head := s.majorHead, minor_head := s.minorHead,
          document_date := s.documentDate, document_remarks := s.remarks,
          tags := s.tags.map (fun tag => { tag_name := tag }),
          user_id := "example_user_id" }
      match (uploadDocument store selectedFile.uri selectedFile.name
              selectedFile.fileType documentData resp).2 with
      | Except.ok response =>
          if response.success then
            ({ documentDate := now, majorHead := "", minorHead := "",
               remarks := "", tags := [], newTag := "",
               selectedFile := none, loading := false },
             ("Success", "Document uploaded successfully!"))
          else
            ({ s with loading := false },
             ("Upload Error", jsOrStr response.message "Failed to upload document."))
      | Except.error e =>
          ({ s with loading := false },
           ("Upload Failed",
            if e = "" then "An unexpected error occurred during upload." else e))

end UploadScreen

namespace SearchScreen

/-- The `onValueChange` of the search screen's major-head Picker: it is
`setMajorHead` alone — no other field is touched. -/
def onMajorHeadChange (s : SearchFormState) (itemValue : String) :
    SearchFormState :=
  { s with majorHead := itemValue }

/-- `handleAddTag` from SearchScreen.js: identical logic to the upload
screen's, over the search screen's state. -/
def handleAddTag (s : SearchFormState) : SearchFormState :=
  let trimmedTag := jsTrim s.newTag
  if trimmedTag != "" && !(s.tags.contains trimmedTag) then
    { s with tags := s.tags ++ [trimmedTag], newTag := "" }
  else s

/-- `handleRemoveTag` from SearchScreen.js. -/
def handleRemoveTag (s : SearchFormState) (tagToRemove : String) :
    SearchFormState :=
  { s with tags := s.tags.filter (fun tag => tag != tagToRemove) }

end SearchScreen

/-! ### LoginScreen.js -/

/-- The decoded response of `validateOTP`, duck-typed: `success`, an
optional `token`, an optional `message`. -/
structure OtpResponse where
  success : Bool
  token : Option String
  message : Option String
deriving DecidableEq, Repr

namespace LoginScreen

/-- `handleValidateOtp` from LoginScreen.js, from the press through the
handling of a resolved `validateOTP` response: the input gate
(`!mobileNumber || !otp`), then `response.success && response.token`
deciding between `signIn(response.token)` with the success alert and the
error alert `response.message || Invalid OTP...`.  `storageOk` is passed
through to `signIn`.  Returns the persisted store, the session state and
the alert shown. -/
def handleValidateOtp (mobileNumber otp : String) (resp : OtpResponse)
    (store : Option String) (s : AuthState) (storageOk : Bool) :
    Option String × AuthState × (String × String) :=
  if mobileNumber = "" ∨ otp = "" then
    (store, s, ("Input Error", "Please enter both mobile number and OTP."))
  else
    match resp.token with
    | some token =>
        if resp.success && (token != "") then
          let r := signIn store s token storageOk
          (r.1, r.2, ("Success", "Login successful!"))
        else
          (store, s, ("Error", jsOrStr resp.message "Invalid OTP. Please try again."))
    | none =>
        (store, s, ("Error", jsOrStr resp.message "Invalid OTP. Please try again."))

end LoginScreen

/-! ### Claims -/

/-- Claim C1: with no stored session token, each of the three document
API operations (`uploadDocument`, `fetchDocumentTags`, `searchDocuments`)
throws the missing-session fault `Authentication token not found. Please
log in again.` and issues no network request (the issued request is
`none`), whatever the would-be response. -/
theorem docApi_noToken_failsFast (fileUri fileName fileType term : String)
    (documentData : DocumentData) (criteria : SearchCriteria)
    (resp : HttpResponse) :
    uploadDocument none fileUri fileName fileType documentData resp
      = (none, Except.error authTokenNotFoundMsg) ∧
    fetchDocumentTags none term resp = (none, Except.error authTokenNotFoundMsg) ∧
    searchDocuments none criteria resp = (none, Except.error authTokenNotFoundMsg) :=
  ⟨rfl, rfl, rfl⟩

/-- Claim C2, counterexample: on the search screen, changing the major
head from `Personal` to `Professional` leaves the previously selected
minor head `Tom` in place — it is not reset to the empty selection, so
the reset does not happen on every screen offering category selection. -/
theorem searchScreen_majorChange_keepsMinor_cex :
    (SearchScreen.onMajorHeadChange
      { majorHead := "Personal", minorHead := "Tom", tags := [], newTag := "",
        fromDate := none, toDate := none, searchResults := [], loading := false }
      "Professional").minorHead = "Tom" ∧ ("Tom" : String) ≠ "" :=
  ⟨rfl, by decide⟩

/-- Claim C2, amended: on the upload screen, changing the selected major
category clears any previously selected minor category; on the search
screen the major-head change leaves the minor selection unchanged. -/
theorem majorChange_resetsMinor_uploadOnly (su : UploadFormState)
    (ss : SearchFormState) (v : String) :
    (UploadScreen.onMajorHeadChange su v).majorHead = v ∧
    (UploadScreen.onMajorHeadChange su v).minorHead = "" ∧
    (SearchScreen.onMajorHeadChange ss v).majorHead = v ∧
    (SearchScreen.onMajorHeadChange ss v).minorHead = ss.minorHead :=
  ⟨rfl, rfl, rfl, rfl⟩

/-- Claim C3: when the underlying storage operations succeed, `signIn t`
followed by a fresh load of the persisted store yields `t`, and `signOut`
followed by a fresh load yields absence. -/
theorem session_persistence_roundTrip (t : String) (store : Option String)
    (s s2 : AuthState) :
    (signIn store s t true).1 = some t ∧
    (loadToken (signIn store s t true).1 initialAuthState true).userToken = some t ∧
    (signOut (signIn store s t true).1 s2 true).1 = none ∧
    (loadToken (signOut store s2 true).1 initialAuthState true).userToken = none :=
  ⟨rfl, rfl, rfl, rfl⟩

/-- Claim C8: a failing storage operation is never propagated: `loadToken`
ends with no token and the loading flag cleared (as if nothing were
stored), and `signIn`/`signOut` leave both the store and the in-memory
session state unchanged. -/
theorem storageFailure_swallowed (store : Option String) (s : AuthState)
    (t : String) :
    (loadToken store initialAuthState false).userToken = none ∧
    (loadToken store initialAuthState false).isLoading = false ∧
    signIn store s t false = (store, s) ∧
    signOut store s false = (store, s) :=
  ⟨rfl, rfl, rfl, rfl⟩

/-- Claim C7: the navigation shell renders `Loading` exactly while the
initial token load has not cleared the loading flag; the resolved load
always clears the flag; resolving with a (non-empty) token renders the
authenticated stack, and resolving with none renders only the login
screen. -/
theorem navShell_loading_then_auth :
    appContent initialAuthState = ShellState.Loading ∧
    (∀ s : AuthState, appContent s = ShellState.Loading ↔ s.isLoading = true) ∧
    (∀ store : Option String, ∀ s : AuthState,
      (loadToken store s true).isLoading = false) ∧
    (∀ t : String, t ≠ "" →
      appContent (loadToken (some t) initialAuthState true)
        = ShellState.Authenticated) ∧
    appContent (loadToken none initialAuthState true)
      = ShellState.Unauthenticated := by
  refine ⟨rfl, ?_, fun store s => rfl, ?_, rfl⟩
  · intro s
    cases h : s.isLoading
    · simp only [appContent, h, Bool.false_eq_true, if_false]
      constructor
      · intro hc
        by_cases ht : jsTruthyStr s.userToken = true
        · rw [if_pos ht] at hc
          exact absurd hc (by simp)
        · rw [if_neg ht] at hc
          exact absurd hc (by simp)
      · intro hc
        exact absurd hc (by simp)
    · simp [appContent, h]
  · intro t ht
    simp [appContent, loadToken, jsTruthyStr, ht]

/-- Witness for C7 at the concrete token `abc`. -/
theorem navShell_loading_then_auth_witness :
    appContent (loadToken (some "abc") initialAuthState true)
      = ShellState.Authenticated :=
  navShell_loading_then_auth.2.2.2.1 "abc" (by decide)

/-- Claim C10: signing in with the empty-string token persists it (a
fresh load returns `some ""`), yet the shell renders the login screen:
the authenticated/unauthenticated decision tests truthiness of the
token, not mere presence of a stored value. -/
theorem emptyToken_staysUnauthenticated (store : Option String)
    (s : AuthState) (h : s.isLoading = false) :
    (signIn store s "" true).1 = some "" ∧
    (loadToken (signIn store s "" true).1 initialAuthState true).userToken
      = some "" ∧
    appContent (signIn store s "" true).2 = ShellState.Unauthenticated := by
  refine ⟨rfl, rfl, ?_⟩
  simp [signIn, appContent, jsTruthyStr, h]

/-- Witness for C10 at a concrete resolved session state. -/
theorem emptyToken_staysUnauthenticated_witness :
    appContent (signIn none { userToken := none, isLoading := false } "" true).2
      = ShellState.Unauthenticated :=
  (emptyToken_staysUnauthenticated none
    { userToken := none, isLoading := false } rfl).2.2

/-- Claim C4: on a non-2xx status (with a valid stored token), each of
the three document API calls throws the server-supplied message when one
is present (and non-empty), and the generic `API error: <status>` when
the body carries no message. -/
theorem docApi_nonOk_faultMessage (tok fileUri fileName fileType term : String)
    (documentData : DocumentData) (criteria : SearchCriteria)
    (status : Nat) (body : ApiBody)
    (htok : tok ≠ "") (hstatus : respOk status = false) :
    (∀ m : String, body.message = some m → m ≠ "" →
      (uploadDocument (some tok) fileUri fileName fileType documentData
        ⟨status, body⟩).2 = Except.error m ∧
      (fetchDocumentTags (some tok) term ⟨status, body⟩).2 = Except.error m ∧
      (searchDocuments (some tok) criteria ⟨status, body⟩).2 = Except.error m) ∧
    (body.message = none →
      (uploadDocument (some tok) fileUri fileName fileType documentData
        ⟨status, body⟩).2 = Except.error ("API error: " ++ toString status) ∧
      (fetchDocumentTags (some tok) term ⟨status, body⟩).2
        = Except.error ("API error: " ++ toString status) ∧
      (searchDocuments (some tok) criteria ⟨status, body⟩).2
        = Except.error ("API error: " ++ toString status)) := by
  constructor
  · intro m hm hne
    simp [uploadDocument, fetchDocumentTags, searchDocuments, getUserToken,
      htok, hstatus, apiFault, jsOrStr, hm, hne]
  · intro hm
    simp [uploadDocument, fetchDocumentTags, searchDocuments, getUserToken,
      htok, hstatus, apiFault, jsOrStr, hm]

/-- Witness for C4: a 500 response whose body carries `server down`. -/
theorem docApi_nonOk_faultMessage_witness :
    (uploadDocument (some "tok123") "file:///a" "a.pdf" "application/pdf"
      { major_head := "Personal", minor_head := "Tom",
        document_date := "2024-01-01", document_remarks := "",
        tags := [{ tag_name := "invoice" }], user_id := "example_user_id" }
      ⟨500, { success := false, message := some "server down", token := none }⟩).2
      = Except.error "server down" :=
  ((docApi_nonOk_faultMessage "tok123" "file:///a" "a.pdf" "application/pdf" ""
    { major_head := "Personal", minor_head := "Tom",
      document_date := "2024-01-01", document_remarks := "",
      tags := [{ tag_name := "invoice" }], user_id := "example_user_id" }
    { major_head := "", minor_head := "", from_date := "", to_date := "",
      tags := [], uploaded_by := "", start := 0, length := 10, filterId := "",
      search := { value := "" } }
    500 { success := false, message := some "server down", token := none }
    (by decide) (by decide)).1 "server down" rfl (by decide)).1

/-- Claim C5: when the upload submission passes its validation gates and
gets a 2xx response, a `success:false` body surfaces the exact (non-empty)
server message as the `Upload Error` alert and changes nothing but the
loading flag — document date, major head, minor head, remarks, tags and
selected file all keep their values — while a `success:true` body resets
every field. -/
theorem uploadSubmit_failure_keepsFields (s : UploadFormState) (f : FileInfo)
    (tok now : String) (status : Nat) (body : ApiBody)
    (hf : s.selectedFile = some f) (hmaj : s.majorHead ≠ "")
    (hmin : s.minorHead ≠ "") (htags : s.tags ≠ []) (htok : tok ≠ "")
    (hok : respOk status = true) :
    (∀ m : String, body.success = false → body.message = some m → m ≠ "" →
      UploadScreen.handleSubmit s (some tok) ⟨status, body⟩ now
        = ({ s with loading := false }, ("Upload Error", m))) ∧
    (body.success = true →
      UploadScreen.handleSubmit s (some tok) ⟨status, body⟩ now
        = ({ documentDate := now, majorHead := "", minorHead := "",
             remarks := "", tags := [], newTag := "", selectedFile := none,
             loading := false },
           ("Success", "Document uploaded successfully!"))) := by
  constructor
  · intro m hsucc hm hne
    simp [UploadScreen.handleSubmit, hf, hmaj, hmin, htags, uploadDocument,
      getUserToken, htok, hok, hsucc, jsOrStr, hm, hne]
  · intro hsucc
    simp [UploadScreen.handleSubmit, hf, hmaj, hmin, htags, uploadDocument,
      getUserToken, htok, hok, hsucc]

/-- Witness for C5: a concrete filled form whose submission is rejected
with `Quota exceeded`. -/
theorem uploadSubmit_failure_keepsFields_witness :
    UploadScreen.handleSubmit
      { documentDate := "2024-01-01", majorHead := "Personal",
        minorHead := "Tom", remarks := "r", tags := ["invoice"], newTag := "",
        selectedFile := some { uri := "file:///a", name := "a.pdf",
                               fileType := "application/pdf" },
        loading := true }
      (some "tok123")
      ⟨200, { success := false, message := some "Quota exceeded", token := none }⟩
      "2024-02-02"
      = ({ documentDate := "2024-01-01", majorHead := "Personal",
           minorHead := "Tom", remarks := "r", tags := ["invoice"],
           newTag := "",
           selectedFile := some { uri := "file:///a", name := "a.pdf",
                                  fileType := "application/pdf" },
           loading := false },
         ("Upload Error", "Quota exceeded")) :=
  (uploadSubmit_failure_keepsFields
    { documentDate := "2024-01-01", majorHead := "Personal",
      minorHead := "Tom", remarks := "r", tags := ["invoice"], newTag := "",
      selectedFile := some { uri := "file:///a", name := "a.pdf",
                             fileType := "application/pdf" },
      loading := true }
    { uri := "file:///a", name := "a.pdf", fileType := "application/pdf" }
    "tok123" "2024-02-02" 200
    { success := false, message := some "Quota exceeded", token := none }
    rfl (by decide) (by decide) (by decide) (by decide) (by decide)).1
    "Quota exceeded" rfl rfl (by decide)

/-- Claim C6: on both the upload and the search screen, pressing Add Tag
when the (trimmed) input is already among the selected tags leaves the
whole screen state — in particular the tag selection — unchanged. -/
theorem addTag_duplicate_noChange (su : UploadFormState) (ss : SearchFormState)
    (hu : su.tags.contains (jsTrim su.newTag) = true)
    (hs : ss.tags.contains (jsTrim ss.newTag) = true) :
    UploadScreen.handleAddTag su = su ∧ SearchScreen.handleAddTag ss = ss := by
  constructor
  · have hu2 : jsTrim su.newTag ∈ su.tags := by simpa using hu
    simp [UploadScreen.handleAddTag, hu2]
  · have hs2 : jsTrim ss.newTag ∈ ss.tags := by simpa using hs
    simp [SearchScreen.handleAddTag, hs2]

/-- Witness for C6: adding `invoice` while `invoice` is already selected
on each screen. -/
theorem addTag_duplicate_noChange_witness :
    UploadScreen.handleAddTag
      { documentDate := "2024-01-01", majorHead := "", minorHead := "",
        remarks := "", tags := ["invoice"], newTag := "invoice",
        selectedFile := none, loading := false }
      = { documentDate := "2024-01-01", majorHead := "", minorHead := "",
          remarks := "", tags := ["invoice"], newTag := "invoice",
          selectedFile := none, loading := false } ∧
    SearchScreen.handleAddTag
      { majorHead := "", minorHead := "", tags := ["invoice"],
        newTag := "invoice", fromDate := none, toDate := none,
        searchResults := [], loading := false }
      = { majorHead := "", minorHead := "", tags := ["invoice"],
          newTag := "invoice", fromDate := none, toDate := none,
          searchResults := [], loading := false } :=
  addTag_duplicate_noChange
    { documentDate := "2024-01-01", majorHead := "", minorHead := "",
      remarks := "", tags := ["invoice"], newTag := "invoice",
      selectedFile := none, loading := false }
    { majorHead := "", minorHead := "", tags := ["invoice"],
      newTag := "invoice", fromDate := none, toDate := none,
      searchResults := [], loading := false }
    (by decide) (by decide)

/-- Claim C9: a `validateOTP` response with `success:true` but no token
does not sign the user in: the persisted store and the session state are
returned unchanged, an `Error` alert with `response.message ||` the
invalid-OTP default is shown, and the shell renders exactly what it
rendered before the call. -/
theorem otpValidate_noToken_noSignIn (mobileNumber otp : String)
    (resp : OtpResponse) (store : Option String) (s : AuthState)
    (storageOk : Bool) (hm : mobileNumber ≠ "") (ho : otp ≠ "")
    (_hsucc : resp.success = true) (htok : resp.token = none) :
    LoginScreen.handleValidateOtp mobileNumber otp resp store s storageOk
      = (store, s,
         ("Error", jsOrStr resp.message "Invalid OTP. Please try again.")) ∧
    appContent
      (LoginScreen.handleValidateOtp mobileNumber otp resp store s storageOk).2.1
      = appContent s := by
  have h1 : LoginScreen.handleValidateOtp mobileNumber otp resp store s storageOk
      = (store, s,
         ("Error", jsOrStr resp.message "Invalid OTP. Please try again.")) := by
    simp [LoginScreen.handleValidateOtp, hm, ho, htok]
  exact ⟨h1, by rw [h1]⟩

/-- Witness for C9: a concrete success-without-token response. -/
theorem otpValidate_noToken_noSignIn_witness :
    LoginScreen.handleValidateOtp "9999999999" "123456"
      { success := true, token := none, message := none } none
      { userToken := none, isLoading := false } true
      = (none, { userToken := none, isLoading := false },
         ("Error", "Invalid OTP. Please try again.")) :=
  (otpValidate_noToken_noSignIn "9999999999" "123456"
    { success := true, token := none, message := none } none
    { userToken := none, isLoading := false } true
    (by decide) (by decide) rfl rfl).1
